import Mathlib

/-!
Verification of the deck-renderer core of the pitch-deck service
(`pitch_deck_agent.py`).  The Python source is shallowly embedded:
strings are manipulated as `List Char`, Python `str.split`, `str.strip`
and f-strings become structurally recursive Lean functions, the two
module-level globals become an explicit `ServerState`, and the Flask
endpoints become pure functions from state (plus the results of the
external collaborators, passed as arguments) to responses.
-/

namespace PitchDeck

/-- A Python dict with string keys and string values, as an association
list (first binding wins, mirroring unique dict keys). -/
abbrev Dict := List (String × String)

/-- Python `d.get(k)`: first value bound to `k`, if any. -/
def dictGet (d : Dict) (k : String) : Option String :=
  match d with
  | [] => none
  | (k', v) :: rest => if k' = k then some v else dictGet rest k

/-- Python `d.get(k, dflt)`. -/
def dictGetD (d : Dict) (k dflt : String) : String :=
  (dictGet d k).getD dflt

/-- Membership test `k in d` for a Python dict. -/
def dictHasKey (d : Dict) (k : String) : Bool :=
  (dictGet d k).isSome

/-- How Python's f-string renders a value that may be `None`
(`f"{d.get('title')}"` prints `None` when the key is absent). -/
def pyFmtOpt : Option String → String
  | none => "None"
  | some s => s

/-- Characters removed by Python's no-argument `str.strip()`. -/
def isPyWs (c : Char) : Bool :=
  c = ' ' || c = '\t' || c = '\n' || c = '\r' || c = '\x0b' || c = '\x0c'

/-- Characters removed by `str.strip("# ")` (line 165 of the source). -/
def isHashSpace (c : Char) : Bool :=
  c = '#' || c = ' '

/-- Strip characters satisfying `p` from both ends of a character list
(the semantics of Python's two-sided `strip`). -/
def pyStripP (p : Char → Bool) (s : List Char) : List Char :=
  ((s.dropWhile p).reverse.dropWhile p).reverse

/-- Python `str.strip()` on a character list. -/
def pyStrip (s : List Char) : List Char := pyStripP isPyWs s

/-- Python `str.strip()` on a `String`. -/
def pyStripStr (s : String) : String := ⟨pyStrip s.data⟩

/-- Extend the first chunk of a chunk list with one more character. -/
def prependToHead (c : Char) : List (List Char) → List (List Char)
  | [] => [[c]]
  | b :: bs => (c :: b) :: bs

/-- Python `s.split("\n\n")`: split on non-overlapping occurrences of the
two-character separator, left to right (line 159 of the source). -/
def splitOnNlNl : List Char → List (List Char)
  | [] => [[]]
  | [c] => [[c]]
  | c :: d :: rest =>
    if c = '\n' && d = '\n' then [] :: splitOnNlNl rest
    else prependToHead c (splitOnNlNl (d :: rest))

/-- Python `s.split("\n")` (line 164 of the source). -/
def splitOnNl : List Char → List (List Char)
  | [] => [[]]
  | c :: rest =>
    if c = '\n' then [] :: splitOnNl rest
    else prependToHead c (splitOnNl rest)

/-- Line 159: `[s.strip() for s in last_generated_structure.split("\n\n") if s.strip()]`. -/
def parseBlocks (t : String) : List (List Char) :=
  ((splitOnNlNl t.data).map pyStrip).filter (fun b => b ≠ [])

/-- Line 165: `lines[0].strip("# ").strip()` applied to a slide block. -/
def slideTitle (b : List Char) : String :=
  ⟨pyStrip (pyStripP isHashSpace ((splitOnNl b).headD []))⟩

/-- Lines 170-171: the body lines `lines[1:]`, in order, unmodified. -/
def slideBody (b : List Char) : List String :=
  ((splitOnNl b).drop 1).map (fun l => (⟨l⟩ : String))

/-- Line 175: `f"Slide {i}/{total_slides}"`. -/
def footerText (i total : Nat) : String :=
  "Slide " ++ Nat.repr i ++ "/" ++ Nat.repr total

/-- One rendered slide page: centered bold heading, body lines, footer. -/
structure SlidePage where
  heading : String
  body : List String
  footer : String
deriving DecidableEq, Repr, Inhabited

/-- The rendered document: a cover page (its two text regions) followed by
the slide pages, in outline order. -/
structure RenderedDocument where
  coverTitle : String
  coverBody : String
  slides : List SlidePage
deriving DecidableEq, Repr

/-- Lines 162-175: the page built for the `i`-th slide block (1-based). -/
def renderSlide (total i : Nat) (b : List Char) : SlidePage :=
  { heading := slideTitle b
    body := slideBody b
    footer := footerText i total }

/-- The loop of lines 162-175: one page per retained block, with indices
counting up from `i`. -/
def renderSlides (total : Nat) : Nat → List (List Char) → List SlidePage
  | _, [] => []
  | i, b :: bs => renderSlide total i b :: renderSlides total (i + 1) bs

/-- Lines 148-175: the pure page-building part of `download_generated_pdf`.
Cover texts come from lines 154 and 156; slides from the loop. -/
def render (info : Dict) (t : String) : RenderedDocument :=
  let blocks := parseBlocks t
  { coverTitle := "Pitch Deck for " ++ pyFmtOpt (dictGet info "title")
    coverBody :=
      "Website: " ++ pyFmtOpt (dictGet info "url") ++ "\n\n" ++
        dictGetD info "description" ""
    slides := renderSlides blocks.length 1 blocks }

/-- Number of `add_page` calls: the cover plus one page per slide. -/
def pageCount (d : RenderedDocument) : Nat :=
  1 + d.slides.length

/-- All document text that reaches the byte-serialization step, in page
order: the cover's two text regions, then each slide's heading, body
lines and footer. -/
def docText (d : RenderedDocument) : List Char :=
  d.coverTitle.data ++ d.coverBody.data ++
    (d.slides.flatMap fun p =>
      p.heading.data ++ (p.body.flatMap String.data) ++ p.footer.data)

/-- A character list is representable in latin-1 iff every codepoint is
at most 255. -/
def latin1Encodable (cs : List Char) : Bool :=
  cs.all (fun c => c.toNat ≤ 255)

/-- The error message of a failed latin-1 encoding. -/
def latin1ErrMsg : String :=
  "latin-1 codec cannot encode character"

/-- Modelled from the spec: the byte-serialization step of line 178
(`pdf.output(dest="S").encode("latin1")`).  The serializer library is
outside `src/`; per the spec it "fails with RenderError if ... an
encoding cannot represent a character present in the input", so it fails
exactly when some document character falls outside latin-1, and
otherwise yields the latin-1 bytes of the document text. -/
def serializeLatin1 (d : RenderedDocument) : Except String (List Nat) :=
  if latin1Encodable (docText d) then .ok ((docText d).map Char.toNat)
  else .error latin1ErrMsg

/-- Lines 148-178: build the document and serialize it to bytes. -/
def renderBytes (info : Dict) (t : String) : Except String (List Nat) :=
  serializeLatin1 (render info t)

/-- Modelled from the spec: one invocation of the renderer at wall-clock
time `ts`.  The spec's idempotence clause qualifies byte-identity
"modulo any non-deterministic metadata such as generation timestamps":
the serializer (outside `src/`) stamps a generation timestamp
(a CreationDate record) into the byte output, modelled here by appending
`D:` and the decimal digits of `ts` to the payload bytes. -/
def renderInvocation (ts : Nat) (info : Dict) (t : String) :
    Option (List Nat) :=
  match renderBytes info t with
  | .ok bs => some (bs ++ [68, 58] ++ (Nat.toDigits 10 ts).map Char.toNat)
  | .error _ => none

/-- The two module-level globals of lines 36-37. -/
structure ServerState where
  lastStructure : Option String
  lastInfo : Option Dict
deriving DecidableEq, Repr

/-- Lines 36-37: both globals start as `None`. -/
def startState : ServerState := ⟨none, none⟩

/-- Python truthiness of `last_generated_structure`: a present, non-empty
string. -/
def strTruthy : Option String → Bool
  | none => false
  | some s => s ≠ ""

/-- Python truthiness of `last_company_info`: a present, non-empty dict. -/
def dictTruthy : Option Dict → Bool
  | none => false
  | some d => d ≠ []

/-- An HTTP response of the download endpoint: an error JSON with a
status code, or the PDF bytes as a file attachment. -/
inductive DownloadResult where
  | err (status : Nat) (message : String)
  | file (bytes : List Nat)
deriving DecidableEq, Repr

/-- Line 145's error message. -/
def noRecentMsg : String :=
  "No recent presentation found. Generate one first."

/-- Lines 139-190: the `/downloads/latest.pdf` endpoint as a function of
the two globals.  Line 144 rejects when either global is falsy; otherwise
the document is rendered and serialized, any exception becoming a 500
response (lines 188-190). -/
def download_generated_pdf (st : ServerState) : DownloadResult :=
  match st.lastStructure, st.lastInfo with
  | some s, some d =>
    if s = "" || d = [] then .err 400 noRecentMsg
    else
      match renderBytes d s with
      | .ok bs => .file bs
      | .error e => .err 500 ("Failed to generate PDF: " ++ e)
  | _, _ => .err 400 noRecentMsg

/-- Lines 64-92: `generate_pitch_deck`.  The Gemini call's outcome is an
argument (`.ok text` for a reply, `.error msg` for a raised exception);
the function never raises: on success it returns `response.text.strip()`,
on failure the error marker string of line 92. -/
def generate_pitch_deck (geminiRes : Except String String) : String :=
  match geminiRes with
  | .ok text => pyStripStr text
  | .error e => "# Error generating structure: " ++ e

/-- Lines 95-136: the `/generate` endpoint as a state transformer.
External collaborators enter as arguments: `jsonBody` is the outcome of
`request.get_json(force=True)` (`.error` when it raises), `fetchRes` the
dict returned by `fetch_company_info` (which never raises; scrape
failures carry an `"error"` key), `geminiRes` the Gemini call's outcome,
and `stubRes` the outcome of the local Presenton stub call.  Returns the
new state and the HTTP status code. -/
def generate_api (st : ServerState) (jsonBody : Except String Dict)
    (fetchRes : Dict) (geminiRes : Except String String)
    (stubRes : Except String Unit) : ServerState × Nat :=
  match jsonBody with
  | .error _ => (st, 500)
  | .ok data =>
    match dictGet data "url" with
    | none => (st, 400)
    | some u =>
      if u = "" then (st, 400)
      else if dictHasKey fetchRes "error" then (st, 400)
      else
        match stubRes with
        | .error _ => (st, 500)
        | .ok _ =>
          ({ lastStructure := some (generate_pitch_deck geminiRes)
             lastInfo := some fetchRes }, 200)

/-- Whether `startsWithSeq hay needle` holds: `needle` begins `hay`. -/
def startsWithSeq : List Char → List Char → Bool
  | _, [] => true
  | [], _ :: _ => false
  | c :: cs, d :: ds => c = d && startsWithSeq cs ds

/-- Whether `needle` occurs contiguously anywhere in the second list. -/
def containsSeq (needle : List Char) : List Char → Bool
  | [] => startsWithSeq [] needle
  | c :: t => startsWithSeq (c :: t) needle || containsSeq needle t

/-- The heading the specification describes for a slide block's first
line: surrounding whitespace and the leading run of `#` characters are
removed, and everything else — interior and trailing `#` included — is
kept.  Stated from the spec's words, to be compared with `slideTitle`. -/
def specClaimedHeading (line : List Char) : List Char :=
  pyStrip ((pyStrip line).dropWhile (fun c => c = '#'))

/-- The company info of the spec's end-to-end scenario. -/
def acmeInfo : Dict :=
  [("title", "Acme"), ("url", "https://acme.example"),
   ("description", "Widgets for clouds")]

/-- The outline of the spec's end-to-end scenario. -/
def acmeOutline : String :=
  "# Title Slide\nAcme\n\n# Problem\nToo many widgets are manual"

/-! ### Helper lemmas -/

theorem renderSlides_length (N k : Nat) (bs : List (List Char)) :
    (renderSlides N k bs).length = bs.length := by
  induction bs generalizing k with
  | nil => rfl
  | cons b bs ih => simp [renderSlides, ih]

theorem renderSlides_getD (N : Nat) (bs : List (List Char)) :
    ∀ (k i : Nat), i < bs.length →
      (renderSlides N k bs).getD i default
        = renderSlide N (k + i) (bs.getD i []) := by
  induction bs with
  | nil => intro k i h; cases h
  | cons b bs ih =>
    intro k i h
    cases i with
    | zero => simp [renderSlides]
    | succ j =>
      have hj : j < bs.length := Nat.lt_of_succ_lt_succ (by simpa using h)
      have harith : k + 1 + j = k + (j + 1) := by omega
      simp only [renderSlides, List.getD_cons_succ]
      rw [ih (k + 1) j hj, harith]

theorem render_slides_eq (info : Dict) (t : String) :
    (render info t).slides
      = renderSlides (parseBlocks t).length 1 (parseBlocks t) := rfl

theorem render_slides_length (info : Dict) (t : String) :
    (render info t).slides.length = (parseBlocks t).length := by
  rw [render_slides_eq, renderSlides_length]

theorem prependToHead_ne_nil (c : Char) (l : List (List Char)) :
    prependToHead c l ≠ [] := by
  cases l <;> simp [prependToHead]

theorem splitOnNlNl_ne_nil (l : List Char) : splitOnNlNl l ≠ [] := by
  match l with
  | [] => simp [splitOnNlNl]
  | [c] => simp [splitOnNlNl]
  | c :: d :: rest =>
    simp only [splitOnNlNl]
    split
    · simp
    · exact prependToHead_ne_nil _ _

theorem splitOnNlNl_cons_ne (c : Char) (r : List Char) (hc : ¬ c = '\n') :
    ∃ b bs, splitOnNlNl (c :: r) = (c :: b) :: bs := by
  match r with
  | [] => exact ⟨[], [], by simp [splitOnNlNl]⟩
  | d :: rest =>
    obtain ⟨b, bs, hr⟩ :=
      List.exists_cons_of_ne_nil (splitOnNlNl_ne_nil (d :: rest))
    refine ⟨b, bs, ?_⟩
    simp only [splitOnNlNl]
    rw [if_neg (by simp [hc]), hr]
    rfl

theorem mem_dropWhile_of_neg {p : Char → Bool} {c : Char}
    (hw : p c = false) :
    ∀ {l : List Char}, c ∈ l → c ∈ l.dropWhile p := by
  intro l
  induction l with
  | nil => simp
  | cons a l ih =>
    intro hm
    rw [List.dropWhile_cons]
    by_cases hp : p a
    · simp only [hp, if_true]
      rcases List.mem_cons.mp hm with h1 | h2
      · subst h1; rw [hp] at hw; cases hw
      · exact ih h2
    · simp only [hp, if_false]
      exact hm

theorem pyStrip_ne_nil_of_mem (l : List Char) (c : Char) (hc : c ∈ l)
    (hw : isPyWs c = false) : pyStrip l ≠ [] := by
  intro h
  unfold pyStrip pyStripP at h
  rw [List.reverse_eq_nil_iff, List.dropWhile_eq_nil_iff] at h
  have h1 : c ∈ l.dropWhile isPyWs := mem_dropWhile_of_neg hw hc
  have h2 : c ∈ (l.dropWhile isPyWs).reverse := List.mem_reverse.mpr h1
  have := h c h2
  rw [hw] at this
  cases this

/-! ### Claim theorems -/

/-- C1.  For every company info and outline text, `render` produces a
document whose page count is `N + 1`, where `N` is the number of blocks
that are non-empty after splitting the outline on blank lines and
trimming (as `parseBlocks` computes); when `N = 0` only the cover page
remains; and the slide page at 0-based position `i` carries the footer
`Slide (i+1)/N`, the cover excluded from both index and total. -/
theorem render_page_count_footers (info : Dict) (t : String) :
    pageCount (render info t) = (parseBlocks t).length + 1 ∧
    ((parseBlocks t).length = 0 → (render info t).slides = []) ∧
    (∀ i, i < (render info t).slides.length →
      ((render info t).slides.getD i default).footer
        = footerText (i + 1) (parseBlocks t).length) := by
  refine ⟨?_, ?_, ?_⟩
  · rw [pageCount, render_slides_length, Nat.add_comm]
  · intro h0
    have hnil : parseBlocks t = [] := List.length_eq_zero.mp h0
    rw [render_slides_eq, hnil]
    rfl
  · intro i hi
    have hib : i < (parseBlocks t).length := by
      rw [render_slides_length] at hi
      exact hi
    rw [render_slides_eq,
      renderSlides_getD (parseBlocks t).length (parseBlocks t) 1 i hib]
    show footerText (1 + i) (parseBlocks t).length = _
    rw [Nat.add_comm 1 i]

/-- Witness for C1 at a concrete two-block outline. -/
theorem render_page_count_footers_witness :
    ((render [] "A\n\nB").slides.getD 0 default).footer
        = footerText (0 + 1) (parseBlocks "A\n\nB").length ∧
      footerText (0 + 1) (parseBlocks "A\n\nB").length = "Slide 1/2" :=
  ⟨(render_page_count_footers [] "A\n\nB").2.2 0 (by decide), by decide⟩

/-- C2 counterexample.  The claim says interior and trailing `#` of a
block's first line are preserved in the heading; but `strip("# ")` is
two-sided, so the block `"## Problem ##"` renders with heading
`"Problem"`, while the claimed stripping rule yields `"Problem ##"`. -/
theorem heading_trailing_hash_counterexample :
    (render [] "## Problem ##").slides = [⟨"Problem", [], "Slide 1/1"⟩] ∧
    String.mk (specClaimedHeading ("## Problem ##".data)) = "Problem ##" ∧
    ("Problem" : String) ≠ "Problem ##" := by
  decide

/-- C2 as amended.  For every retained slide block, the rendered heading
is the block's first line with leading and trailing runs of `#` and
space characters removed and remaining surrounding whitespace trimmed
(interior `#` are preserved); in particular a block whose first line is
`"## Problem"` yields heading `"Problem"`. -/
theorem heading_extraction_amended :
    (∀ (info : Dict) (t : String) (i : Nat),
      i < (render info t).slides.length →
      ((render info t).slides.getD i default).heading
        = ⟨pyStrip (pyStripP isHashSpace
            ((splitOnNl ((parseBlocks t).getD i [])).headD []))⟩) ∧
    (render [] "## Problem").slides.map SlidePage.heading = ["Problem"] := by
  constructor
  · intro info t i hi
    have hib : i < (parseBlocks t).length := by
      rw [render_slides_length] at hi
      exact hi
    rw [render_slides_eq,
      renderSlides_getD (parseBlocks t).length (parseBlocks t) 1 i hib]
    rfl
  · decide

/-- Witness for the amended C2 at a concrete block with body text. -/
theorem heading_extraction_amended_witness :
    ((render [] "# A #\nbody").slides.getD 0 default).heading
      = ⟨pyStrip (pyStripP isHashSpace
          ((splitOnNl ((parseBlocks "# A #\nbody").getD 0 [])).headD []))⟩ :=
  heading_extraction_amended.1 [] "# A #\nbody" 0 (by decide)

/-- C3.  Blocks that are empty after trimming are discarded: the outline
`"A\n\n\n\nB"` (consecutive blank lines between two one-line blocks)
renders, for any company info, exactly two slide pages titled `"A"` and
`"B"`. -/
theorem blank_blocks_discarded (info : Dict) :
    (render info "A\n\n\n\nB").slides.length = 2 ∧
    (render info "A\n\n\n\nB").slides.map SlidePage.heading = ["A", "B"] :=
  ⟨rfl, rfl⟩

/-- C4.  The end-to-end scenario: for the Acme company info and the
two-block outline, `render` yields 3 pages; the cover shows the title,
URL and description; page 1 is `Title Slide` / `Acme` / `Slide 1/2`;
page 2 is `Problem` / `Too many widgets are manual` / `Slide 2/2`. -/
theorem end_to_end_acme :
    pageCount (render acmeInfo acmeOutline) = 3 ∧
    (render acmeInfo acmeOutline).coverTitle = "Pitch Deck for Acme" ∧
    (render acmeInfo acmeOutline).coverBody
      = "Website: https://acme.example\n\nWidgets for clouds" ∧
    containsSeq "Acme".data
      (render acmeInfo acmeOutline).coverTitle.data = true ∧
    containsSeq "https://acme.example".data
      (render acmeInfo acmeOutline).coverBody.data = true ∧
    containsSeq "Widgets for clouds".data
      (render acmeInfo acmeOutline).coverBody.data = true ∧
    (render acmeInfo acmeOutline).slides
      = [⟨"Title Slide", ["Acme"], "Slide 1/2"⟩,
         ⟨"Problem", ["Too many widgets are manual"], "Slide 2/2"⟩] := by
  decide

/-- C5 counterexample.  Two invocations of the renderer with identical
inputs but different wall-clock times (the serializer stamps a
generation timestamp into the bytes) give different byte outputs, so
byte-level idempotence fails as claimed. -/
theorem render_idempotence_counterexample :
    renderInvocation 0 [] "A" ≠ renderInvocation 1 [] "A" := by
  decide

/-- C5 as amended.  The renderer is deterministic given a fixed
serialization timestamp: two invocations with identical inputs whose
embedded generation-timestamp metadata coincides produce byte-identical
output. -/
theorem render_deterministic_fixed_timestamp (info : Dict) (t : String)
    (ts1 ts2 : Nat) (h : ts1 = ts2) :
    renderInvocation ts1 info t = renderInvocation ts2 info t := by
  rw [h]

/-- Witness for the amended C5 at a concrete input and timestamp. -/
theorem render_deterministic_fixed_timestamp_witness :
    renderInvocation 7 [] "A" = renderInvocation 7 [] "A" :=
  render_deterministic_fixed_timestamp [] "A" 7 7 rfl

/-- C6.  Rendering fails exactly when the byte-serialization step cannot
complete, i.e. when some character of the document text falls outside
latin-1; no other operation fails (`render` itself is total); and when
serialization fails while the stored state is truthy, the download
endpoint surfaces the failure as a 500 response. -/
theorem render_error_iff_latin1 (info : Dict) (t : String)
    (st : ServerState) (h1 : st.lastStructure = some t)
    (h2 : st.lastInfo = some info) (h3 : ¬ t = "") (h4 : ¬ info = []) :
    ((∃ msg, renderBytes info t = .error msg) ↔
      latin1Encodable (docText (render info t)) = false) ∧
    (latin1Encodable (docText (render info t)) = false →
      download_generated_pdf st
        = .err 500 ("Failed to generate PDF: " ++ latin1ErrMsg)) := by
  cases henc : latin1Encodable (docText (render info t)) with
  | true =>
    constructor
    · constructor
      · rintro ⟨msg, hm⟩
        rw [renderBytes, serializeLatin1, if_pos henc] at hm
        cases hm
      · intro hf
        cases hf
    · intro hf
      cases hf
  | false =>
    have hren : renderBytes info t = .error latin1ErrMsg := by
      rw [renderBytes, serializeLatin1, if_neg]
      rw [henc]
      intro hf
      cases hf
    constructor
    · constructor
      · intro _
        rfl
      · intro _
        exact ⟨latin1ErrMsg, hren⟩
    · intro _
      obtain ⟨ls, li⟩ := st
      simp only at h1 h2
      subst h1
      subst h2
      rw [download_generated_pdf]
      simp only [h3, h4, decide_False, Bool.or_self, Bool.false_eq_true,
        if_false, hren]

/-- Witness for C6: an outline containing a euro sign (outside latin-1)
makes the download endpoint answer 500. -/
theorem render_error_iff_latin1_witness :
    download_generated_pdf ⟨some "€", some [("title", "T")]⟩
      = .err 500 ("Failed to generate PDF: " ++ latin1ErrMsg) :=
  (render_error_iff_latin1 [("title", "T")] "€"
    ⟨some "€", some [("title", "T")]⟩ rfl rfl (by decide) (by decide)).2
    (by decide)

/-- C7.  A download request in the initial process state (no generation
has ever occurred: both globals are `None`) returns the 400 "no recent
presentation" error, so no document bytes are produced. -/
theorem download_before_any_generation :
    download_generated_pdf startState = .err 400 noRecentMsg := rfl

/-- C8.  When the outline generator call fails, no exception propagates:
the outline text returned is the error marker followed by the failure
message, and rendering that text still yields at least one slide page
(the error text is rendered as slide content). -/
theorem generation_error_degraded (info : Dict) (e : String) :
    generate_pitch_deck (.error e)
      = "# Error generating structure: " ++ e ∧
    0 < (render info (generate_pitch_deck (.error e))).slides.length := by
  constructor
  · rfl
  · have hdata : ("# Error generating structure: " ++ e).data
        = '#' :: (" Error generating structure: ".data ++ e.data) := by
      rw [String.data_append]
      have h0 : ("# Error generating structure: ").data
          = '#' :: (" Error generating structure: ").data := by decide
      rw [h0]
      rfl
    obtain ⟨b, bs, hsplit⟩ :=
      splitOnNlNl_cons_ne '#'
        (" Error generating structure: ".data ++ e.data) (by decide)
    have hp : pyStrip ('#' :: b) ≠ [] :=
      pyStrip_ne_nil_of_mem _ '#' (List.mem_cons_self _ _) (by decide)
    rw [generate_pitch_deck, render_slides_length, parseBlocks, hdata,
      hsplit, List.map_cons, List.filter_cons]
    simp only [hp, ne_eq, not_false_eq_true, decide_True, if_true,
      List.length_cons]
    exact Nat.succ_pos _

/-- C9.  The two process-wide globals are overwritten, both together,
exactly on a generation request that succeeds end to end (status 200,
storing the generated structure and the scraped info); on every failing
path of the endpoint the state is unchanged. -/
theorem generate_api_state_frame (st : ServerState)
    (jsonBody : Except String Dict) (fetchRes : Dict)
    (geminiRes : Except String String) (stubRes : Except String Unit) :
    ((generate_api st jsonBody fetchRes geminiRes stubRes).2 ≠ 200 →
      (generate_api st jsonBody fetchRes geminiRes stubRes).1 = st) ∧
    ((generate_api st jsonBody fetchRes geminiRes stubRes).2 = 200 →
      (generate_api st jsonBody fetchRes geminiRes stubRes).1
        = ⟨some (generate_pitch_deck geminiRes), some fetchRes⟩) := by
  cases jsonBody with
  | error e => simp [generate_api]
  | ok data =>
    cases hurl : dictGet data "url" with
    | none => simp [generate_api, hurl]
    | some u =>
      by_cases hu : u = ""
      · simp [generate_api, hurl, hu]
      · by_cases hk : dictHasKey fetchRes "error"
        · simp [generate_api, hurl, hu, hk]
        · cases stubRes with
          | error e => simp [generate_api, hurl, hu, hk]
          | ok _ => simp [generate_api, hurl, hu, hk]

/-- Witness for C9 at a concrete successful generation. -/
theorem generate_api_state_frame_witness :
    (generate_api startState (.ok [("url", "u")]) [("title", "T")]
        (.ok "S") (.ok ())).1
      = ⟨some (generate_pitch_deck (.ok "S")), some [("title", "T")]⟩ :=
  (generate_api_state_frame startState (.ok [("url", "u")])
    [("title", "T")] (.ok "S") (.ok ())).2 rfl

/-- C10.  The download endpoint answers the 400 "no recent presentation"
error whenever either stored global is falsy — not only in the initial
state; in particular a state left by a successful generation with an
empty outline string is rejected the same way. -/
theorem download_rejects_falsy_state (st : ServerState)
    (h : strTruthy st.lastStructure = false ∨
      dictTruthy st.lastInfo = false) :
    download_generated_pdf st = .err 400 noRecentMsg := by
  obtain ⟨ls, li⟩ := st
  cases ls with
  | none => rfl
  | some s =>
    cases li with
    | none => rfl
    | some d =>
      simp only [strTruthy, dictTruthy] at h
      rw [download_generated_pdf]
      have hcond : (s = "") ∨ (d = []) := by
        rcases h with h | h
        · left
          by_contra hs
          rw [decide_eq_false_iff_not] at h
          exact h hs
        · right
          by_contra hd
          rw [decide_eq_false_iff_not] at h
          exact h hd
      rcases hcond with h | h <;> simp [h]

/-- Witness for C10: a generation that succeeds with an empty outline
leaves a state the download endpoint rejects with the same 400 error. -/
theorem download_rejects_falsy_state_witness :
    generate_api startState (.ok [("url", "u")]) [("title", "T")]
        (.ok "") (.ok ())
      = (⟨some "", some [("title", "T")]⟩, 200) ∧
    download_generated_pdf ⟨some "", some [("title", "T")]⟩
      = .err 400 noRecentMsg :=
  ⟨by decide,
   download_rejects_falsy_state ⟨some "", some [("title", "T")]⟩
     (by decide)⟩

end PitchDeck
